import Mathlib

/-!
Shallow embedding of `ai_models_training/finetune_model.py` (a LoRA
fine-tuning pipeline script) together with theorems checking the
natural-language specification of the repository against the code.

Python strings are modelled as `String` (paths, names) or `List Char`
(texts whose character structure matters).  Python dictionaries are
association lists; a missing-key access is a `KeyError`.  `sys.exit(n)`
raises `SystemExit`, which is *not* an `Exception` subclass, so it is not
caught by the `except Exception` clause of `main`; this distinction is
modelled by the `Flow` type below.  The filesystem, the CUDA runtime, the
interactive operator and the external HuggingFace pieces are an explicit
environment `Env`.
-/

namespace Finetune

/-- One record of a training corpus file, as consumed by
`format_instruction` via `example.get("instruction"/"input"/"output", "")`.
An absent field is the empty string, i.e. `[]`. -/
structure TrainingExampleR where
  instruction : List Char
  input : List Char
  output : List Char
deriving DecidableEq, Inhabited

/-- The external tokenizer handle loaded by `AutoTokenizer.from_pretrained`:
an abstract deterministic `encode` map plus the pad/eos special tokens. -/
structure Tokenizer where
  encode : List Char → List Nat
  padToken : Option Nat
  eosToken : Nat

/-- Python exceptions that the modelled code can raise (subclasses of
`Exception`, hence caught by the top-level handler of `main`). -/
inductive PyExc where
  | keyError (key : String)
  | runtimeError (msg : String)
deriving DecidableEq

/-- Exception class name, as `type(error).__name__` renders it. -/
def PyExc.excName : PyExc → String
  | .keyError _ => "KeyError"
  | .runtimeError _ => "RuntimeError"

/-- Exception message, as `str(error)` renders it (quoting of `KeyError`
arguments is elided; it plays no role in any claim). -/
def PyExc.msg : PyExc → String
  | .keyError k => k
  | .runtimeError m => m

/-- Control-flow outcome of a piece of the script body: normal value,
`sys.exit(code)` (a `SystemExit`, transparent to `except Exception`),
or a raised `Exception`. -/
inductive Flow (α : Type) where
  | ok (a : α)
  | exitWith (code : Nat)
  | exc (e : PyExc)
deriving DecidableEq

/-- External failure injection points: the opaque model-loading and
training calls, which the spec treats as failure-prone black boxes. -/
inductive Stage where
  | setupModel
  | train
deriving DecidableEq

/-- Wall-clock instant with sub-second precision, as `datetime.now()`
observes it.  `strftime("%Y-%m-%d_%H-%M-%S")` drops `micro`. -/
structure DateTime where
  year : Nat
  month : Nat
  day : Nat
  hour : Nat
  minute : Nat
  second : Nat
  micro : Nat
deriving DecidableEq

/-- Zero-padding to two digits, as `strftime` formats date components. -/
def pad2 (n : Nat) : String :=
  if n < 10 then "0" ++ toString n else toString n

/-- Four-digit year field of `strftime`. -/
def pad4 (n : Nat) : String :=
  if n < 10 then "000" ++ toString n
  else if n < 100 then "00" ++ toString n
  else if n < 1000 then "0" ++ toString n
  else toString n

/-- The timestamp format `"%Y-%m-%d_%H-%M-%S"` used for incident-log file
names (second granularity: `micro` does not appear). -/
def strftimeTS (t : DateTime) : String :=
  pad4 t.year ++ "-" ++ pad2 t.month ++ "-" ++ pad2 t.day ++ "_" ++
    pad2 t.hour ++ "-" ++ pad2 t.minute ++ "-" ++ pad2 t.second

/-- The configuration dictionary `OUTPUT_CONFIG` (lines 58-62).  Note that
it defines exactly the keys `models_dir`, `training_data_dir` and
`crash_reports_dir`; there is no `documentation_dir` entry. -/
def OUTPUT_CONFIG : List (String × String) :=
  [("models_dir", "Models"),
   ("training_data_dir", "training data"),
   ("crash_reports_dir", "logs")]

/-- Python `d[k]` on an association-list dictionary: `some` value or a
`KeyError` signalled by `none`. -/
def dictGet (d : List (String × String)) (k : String) : Option String :=
  d.lookup k

/-- The training-schedule configuration `TRAINING_CONFIG` (lines 40-49). -/
structure TrainingConfig where
  num_epochs : Nat
  batch_size : Nat
  gradient_accumulation_steps : Nat
  learning_rate : Rat
  max_seq_length : Nat
  warmup_steps : Nat
  logging_steps : Nat
  save_steps : Nat

def TRAINING_CONFIG : TrainingConfig :=
  { num_epochs := 3
    batch_size := 4
    gradient_accumulation_steps := 4
    learning_rate := 2 / 10000
    max_seq_length := 2048
    warmup_steps := 100
    logging_steps := 10
    save_steps := 100 }

/-- The adaptation configuration `FINETUNING_CONFIG` (lines 31-38). -/
structure FinetuningConfig where
  method : String
  version : String
  lora_r : Nat
  lora_alpha : Nat
  lora_dropout : Rat
  target_modules : List String

def FINETUNING_CONFIG : FinetuningConfig :=
  { method := "LoRA"
    version := "v1"
    lora_r := 16
    lora_alpha := 32
    lora_dropout := 5 / 100
    target_modules := ["q_proj", "k_proj", "v_proj", "o_proj"] }

/-- Crash-report file name (lines 96-98):
`crash_report_finetune_model_<timestamp>.log`, timestamp at second
granularity. -/
def report_name (t : DateTime) : String :=
  "crash_report_finetune_model_" ++ strftimeTS t ++ ".log"

/-- Full path of a crash report inside `OUTPUT_CONFIG["crash_reports_dir"]`. -/
def reportPath (t : DateTime) : String :=
  "logs/" ++ report_name t

/-- The string `traceback.format_exc()` produces inside an `except` block:
a fixed banner line followed by the formatted frames. -/
def format_exc (frames : String) : String :=
  "Traceback (most recent call last):\n" ++ frames

/-- An eighty-character separator row, `"=" * 80`. -/
def sepRow : List Char := List.replicate 80 (Char.ofNat 61)

/-- Header block of a crash report (lines 100-115): separator rows, title,
timestamp (second granularity) and the configuration snapshot.
`sys.version` and `sys.platform` are abstracted as fixed placeholder
strings. -/
def crHeader (t : DateTime) (cudaAvail : Bool) : List Char :=
  sepRow ++ "\nFINE-TUNING SCRIPT CRASH REPORT\n".toList ++ sepRow ++
  "\n\nTimestamp: ".toList ++
  (pad4 t.year ++ "-" ++ pad2 t.month ++ "-" ++ pad2 t.day ++ " " ++
    pad2 t.hour ++ ":" ++ pad2 t.minute ++ ":" ++ pad2 t.second).toList ++
  "\nScript: finetune_model.py\nPython: 3\nPlatform: linux\n\n".toList ++
  ("Configuration:\n  Method: " ++ FINETUNING_CONFIG.method ++
   "\n  Version: " ++ FINETUNING_CONFIG.version ++
   "\n  User: Unknown Developer\n  Organization: Unknown Organization" ++
   "\n  CUDA Available: " ++ (if cudaAvail then "True" else "False") ++
   "\n\n").toList

/-- Context block of a crash report (lines 117-118), emitted only when the
context string is non-empty, exactly as in the source. -/
def crContextBlock (context : String) : List Char :=
  if context ≠ "" then
    ("Context: ".toList ++ context.toList) ++ "\n\n".toList
  else []

/-- Error-kind and message block of a crash report (lines 120-121). -/
def crErrorBlock (e : PyExc) : List Char :=
  ("Error:\n" ++ e.excName ++ ": " ++ e.msg ++ "\n\n").toList

/-- Closing separator of a crash report (line 126). -/
def crFooter : List Char := "\n".toList ++ sepRow ++ "\n".toList

/-- Body text of a crash report, following `write_crash_report`
(lines 100-126). -/
def crash_report_content (t : DateTime) (cudaAvail : Bool)
    (context : String) (e : PyExc) (frames : String) : List Char :=
  crHeader t cudaAvail ++
    (crContextBlock context ++
      (crErrorBlock e ++
        ("Traceback:\n".toList ++ ((format_exc frames).toList ++ crFooter))))

/-- The system-check stage `check_system` (lines 131-140): after the
informational prints it creates `OUTPUT_CONFIG["models_dir"]` and then
accesses `OUTPUT_CONFIG["documentation_dir"]` — a key the dictionary does
not define, so the access raises `KeyError`. -/
def check_system : Flow Unit :=
  match dictGet OUTPUT_CONFIG "documentation_dir" with
  | none => .exc (.keyError "documentation_dir")
  | some _ => .ok ()

/-- Glob `*.jsonl` over the version directory: keeps the entries whose
file name ends in `.jsonl`, in the order the filesystem enumerates them
(`Path.glob` applies no sorting). -/
def globJsonl (entries : List (String × List TrainingExampleR)) :
    List (String × List TrainingExampleR) :=
  entries.filter (fun e => ".jsonl".data.isSuffixOf e.1.data)

/-- The dataset loader `load_training_data` (lines 174-194): exits with
status 1 when the version directory is absent or matches no `.jsonl` file;
otherwise returns the concatenation of the records of the matched files in
the enumeration order handed to `load_dataset`. -/
def load_training_data (versionDirExists : Bool)
    (entries : List (String × List TrainingExampleR)) :
    Flow (List TrainingExampleR) :=
  if !versionDirExists then .exitWith 1
  else
    let files := globJsonl entries
    if files.isEmpty then .exitWith 1
    else .ok (files.flatMap (fun f => f.2))

/-- Section-header strings of the prompt template. -/
def hdrInstruction : List Char := "### Instruction:".toList

def hdrInput : List Char := "### Input:".toList

def hdrResponse : List Char := "### Response:".toList

/-- The prompt formatter `format_instruction` (lines 196-207): three-section
template when the `input` field is (present and) non-empty — Python string
truthiness — else the two-section template. -/
def format_instruction (e : TrainingExampleR) : List Char :=
  if e.input ≠ [] then
    "### Instruction:\n".toList ++ e.instruction ++
      "\n\n### Input:\n".toList ++ e.input ++
      "\n\n### Response:\n".toList ++ e.output
  else
    "### Instruction:\n".toList ++ e.instruction ++
      "\n\n### Response:\n".toList ++ e.output

/-- Pad-token fallback in `setup_model_and_tokenizer` (lines 238-240): when
the tokenizer defines no pad token, the end-of-sequence token becomes the
pad token. -/
def fixPadToken (tk : Tokenizer) : Tokenizer :=
  if tk.padToken.isNone then { tk with padToken := some tk.eosToken } else tk

/-- Truncate to `max_seq_length` then pad up to `max_seq_length`. -/
def truncatePad (pad : Nat) (ids : List Nat) : List Nat :=
  ids.take TRAINING_CONFIG.max_seq_length ++
    List.replicate (TRAINING_CONFIG.max_seq_length - ids.length) pad

/-- Modelled from the spec: the HuggingFace tokenizer call
`tokenizer(text, truncation=True, max_length=max_seq_length,
padding="max_length")` issued by `tokenize_function` (lines 214-220).  The
tokenizer internals are out of scope of the repository ("consumed through a
stable encode contract"); its documented contract is: truncate the encoded
ids to `max_length`, pad them to `max_length` with the pad token, and fail
when no pad token is defined (`none` here). -/
def tokenize_function (tk : Tokenizer) (text : List Char) :
    Option (List Nat) :=
  match tk.padToken with
  | none => none
  | some p => some (truncatePad p (tk.encode text))

/-- Tokenize every formatted record in order, failing as soon as one
tokenization fails. -/
def tokenizeAll (tk : Tokenizer) : List TrainingExampleR →
    Option (List (List Nat))
  | [] => some []
  | e :: rest =>
    match tokenize_function tk (format_instruction e), tokenizeAll tk rest with
    | some ids, some others => some (ids :: others)
    | _, _ => none

/-- The dataset-preparation map of `prepare_dataset` (lines 209-229):
format every record, then tokenize every formatted text. -/
def prepare_dataset (tk : Tokenizer) (ds : List TrainingExampleR) :
    Option (List (List Nat)) :=
  tokenizeAll tk ds

/-- Missing-license log path (lines 153-155). -/
def missingLicensePath (t : DateTime) : String :=
  "logs/missing_license_" ++ strftimeTS t ++ ".log"

/-- Body of the missing-license log (lines 157-166). -/
def missing_license_content (src out : String) : List Char :=
  sepRow ++ "\nMISSING LICENSE WARNING\n".toList ++ sepRow ++
  "\n\nSource Model: ".toList ++ src.toList ++
  "\nOutput Directory: ".toList ++ out.toList ++
  "\n\nWARNING: No LICENSE file found in source model.\n".toList

/-- The license-compliance step `copy_license_or_log` (lines 142-168),
rendered as the list of file writes it performs: either the copied LICENSE
in the artifact directory, or one missing-license log under `logs/`. -/
def copy_license_or_log (hasLicense : Bool) (srcPath outDir : String)
    (now : DateTime) (licText : List Char) : List (String × List Char) :=
  if hasLicense then [(outDir ++ "/LICENSE", licText)]
  else [(missingLicensePath now, missing_license_content srcPath outDir)]

/-- The documentation stage `generate_documentation` (lines 344-405) up to
its filesystem effect: it computes the target path from
`OUTPUT_CONFIG["documentation_dir"]` — a key the dictionary does not define
— so it raises `KeyError` before opening the file; on the (unreachable)
`some` branch it would write one markdown file. -/
def generate_documentation (modelName version : String) :
    Flow (String × String) :=
  match dictGet OUTPUT_CONFIG "documentation_dir" with
  | none => .exc (.keyError "documentation_dir")
  | some d => .ok (d ++ "/" ++ modelName ++ "_ft_" ++ version ++ ".md",
      modelName ++ " - Fine-Tuned " ++ version)

/-- Final filesystem content at a path after a sequence of `open(path,"w")`
writes: the last write to the path wins (mode `"w"` truncates). -/
def fsAfter (writes : List (String × List Char)) (path : String) :
    Option (List Char) :=
  ((writes.filter (fun w => w.1 = path)).getLast?).map (fun w => w.2)

/-- Number of occurrences of `pat` as a substring: positions of the text at
which `pat` is a prefix of the remaining suffix. -/
def countOccs (pat : List Char) : List Char → Nat
  | [] => 0
  | c :: rest =>
      (if pat <+: (c :: rest) then 1 else 0) + countOccs pat rest

/-- Split a character list at every slash. -/
def splitSlash : List Char → List (List Char)
  | [] => [[]]
  | c :: rest =>
    match splitSlash rest with
    | [] => if c = '/' then [[], []] else [[c]]
    | a :: as => if c = '/' then [] :: a :: as else (c :: a) :: as

/-- Last path component, as `pathlib.Path(p).name` computes it for the
paths accepted by the script. -/
def pathName (p : String) : String :=
  ⟨((splitSlash p.data).filter (fun s => s ≠ [])).getLastD p.data⟩

/-- ASCII lowercasing of one character, the fragment of `str.lower`
relevant to the `y`/`Y` prompt answers the script compares against. -/
def asciiLower (c : Char) : Char :=
  if 65 ≤ c.toNat ∧ c.toNat ≤ 90 then Char.ofNat (c.toNat + 32) else c

/-- The prompt check `response.lower() != 'y'` (line 431). -/
def declinesPrompt (response : String) : Bool :=
  decide (response.data.map asciiLower ≠ ['y'])

/-- The world outside the script: command line, filesystem facts, CUDA
runtime, operator input, loaded tokenizer, current clock reading, the
frames `traceback` would format for a failure, and optional injected
failures of the opaque external calls. -/
structure Env where
  argv : List String
  modelPathExists : Bool
  cudaAvailable : Bool
  userResponse : String
  versionDirExists : Bool
  dirEntries : List (String × List TrainingExampleR)
  sourceHasLicense : Bool
  sourceLicenseText : List Char
  tokenizer : Tokenizer
  injectFailure : Option Stage
  now : DateTime
  frames : String

/-- Observable effects accumulated by the script body. -/
structure Trace where
  modelsDirCreated : Bool
  promptShown : Bool
  datasetLoaded : Bool
  loadedRecords : List TrainingExampleR
  artifactDirCreated : Bool
  licenseCopied : Bool
  missingLicenseLogged : Bool
  fileWrites : List (String × List Char)
  docWritten : Bool
  reachedComplete : Bool

/-- Trace at script start: nothing happened yet. -/
def Trace.init : Trace :=
  { modelsDirCreated := false
    promptShown := false
    datasetLoaded := false
    loadedRecords := []
    artifactDirCreated := false
    licenseCopied := false
    missingLicenseLogged := false
    fileWrites := []
    docWritten := false
    reachedComplete := false }

/-- The artifact directory `Models/<modelName>_ft_<version>`
(lines 274-275). -/
def outputDirFor (modelName version : String) : String :=
  "Models/" ++ modelName ++ "_ft_" ++ version

/-- Lines 437-445 of `main`, resumed after the dataset was loaded: model
and tokenizer setup, dataset preparation, training, packaging (license
check included) and documentation, each stage faithful to its source
function.  The explicit `Trace` records what each stage did. -/
def afterLoad (env : Env) (ds : List TrainingExampleR) (t : Trace) :
    Flow Unit × Trace :=
  let t := { t with datasetLoaded := true, loadedRecords := ds }
  -- setup_model_and_tokenizer: tokenizer pad fallback, then the opaque
  -- model load (`AutoModelForCausalLM.from_pretrained`, failure-prone)
  if env.injectFailure = some .setupModel then
    (.exc (.runtimeError "model load failed"), t)
  else
    let tk := fixPadToken env.tokenizer
    -- prepare_dataset: formatting plus tokenization of every record
    match prepare_dataset tk ds with
    | none => (.exc (.runtimeError "tokenization failed"), t)
    | some _ =>
      -- train_model: the trainer materialises the artifact directory,
      -- then the opaque training call runs (failure-prone)
      let t := { t with artifactDirCreated := true }
      if env.injectFailure = some .train then
        (.exc (.runtimeError "training failed"), t)
      else
        let modelName := pathName ((env.argv.getD 1 ""))
        let outDir := outputDirFor modelName FINETUNING_CONFIG.version
        -- copy_license_or_log, called with sys.argv[1] (present, since
        -- main already checked the argument count)
        let licWrites := copy_license_or_log env.sourceHasLicense
          (env.argv.getD 1 "") outDir env.now env.sourceLicenseText
        let t := { t with
          licenseCopied := env.sourceHasLicense
          missingLicenseLogged := !env.sourceHasLicense
          fileWrites := t.fileWrites ++ licWrites }
        -- generate_documentation: raises KeyError on the missing
        -- documentation_dir key before reaching its file write
        match generate_documentation modelName FINETUNING_CONFIG.version with
        | .exc e => (.exc e, t)
        | .exitWith c => (.exitWith c, t)
        | .ok w =>
          let t := { t with
            docWritten := true
            fileWrites := t.fileWrites ++ [(w.1, w.2.toList)] }
          -- "Complete" banner (line 443)
          (.ok (), { t with reachedComplete := true })

/-- Lines 428-445 of `main`: the no-accelerator confirmation prompt, then
dataset loading, then the rest of the pipeline. -/
def afterCheck (env : Env) (t : Trace) : Flow Unit × Trace :=
  if !env.cudaAvailable then
    let t := { t with promptShown := true }
    if declinesPrompt env.userResponse then (.exitWith 0, t)
    else
      match load_training_data env.versionDirExists env.dirEntries with
      | .exitWith c => (.exitWith c, t)
      | .exc e => (.exc e, t)
      | .ok ds => afterLoad env ds t
  else
    match load_training_data env.versionDirExists env.dirEntries with
    | .exitWith c => (.exitWith c, t)
    | .exc e => (.exc e, t)
    | .ok ds => afterLoad env ds t

/-- The body of `main` (lines 413-445): argument-count check, base-model
path check, `check_system`, then the rest.  `check_system` creates the
models directory and then raises `KeyError` on the missing
`documentation_dir` key, so `afterCheck` is dead code on this path. -/
def runBody (env : Env) : Flow Unit × Trace :=
  if env.argv.length ≠ 2 then (.exitWith 1, Trace.init)
  else if !env.modelPathExists then (.exitWith 1, Trace.init)
  else
    let t := { Trace.init with modelsDirCreated := true }
    match check_system with
    | .exc e => (.exc e, t)
    | .exitWith c => (.exitWith c, t)
    | .ok _ => afterCheck env t

/-- Terminal state of one process run: body observables, exit status, and
the crash reports written by the top-level handler. -/
structure RunResult where
  trace : Trace
  exitCode : Nat
  reports : List (String × List Char)

/-- The top-level handler of `main` (lines 412, 450-453): an `Exception`
becomes exactly one crash report plus exit status 1; a `SystemExit` from
`sys.exit` passes through untouched; normal return ends the process with
status 0.  The report context is `"Model: <argv[1]>"` (or `unknown`). -/
def finishRun (env : Env) (p : Flow Unit × Trace) : RunResult :=
  match p with
  | (.ok _, t) => { trace := t, exitCode := 0, reports := [] }
  | (.exitWith c, t) => { trace := t, exitCode := c, reports := [] }
  | (.exc e, t) =>
    let ctx := "Model: " ++ (env.argv.getD 1 "unknown")
    { trace := t
      exitCode := 1
      reports := [(reportPath env.now,
        crash_report_content env.now env.cudaAvailable ctx e env.frames)] }

/-- One full invocation of the script. -/
def runMain (env : Env) : RunResult :=
  finishRun env (runBody env)

/-- Trace state right after `check_system` created the models directory:
the starting point of the post-check pipeline fragment. -/
def traceAfterCheckInit : Trace :=
  { Trace.init with modelsDirCreated := true }

/-- The pipeline fragment that follows the system check, wrapped in the
same top-level handler: what lines 428-453 do once `check_system` has been
passed.  Used to settle the claims that describe stages the `KeyError` in
`check_system` currently makes unreachable. -/
def runFromCheck (env : Env) : RunResult :=
  finishRun env (afterCheck env traceAfterCheckInit)

/-- Lexicographic comparison of character lists by code point, the byte
order underlying lexical filename sorting. -/
def lexLe : List Char → List Char → Bool
  | [], _ => true
  | _ :: _, [] => false
  | a :: as, b :: bs =>
    if a.toNat < b.toNat then true
    else if a.toNat = b.toNat then lexLe as bs
    else false

/-- Stated from the spec for comparison with `load_training_data`: the
concatenation of the matching files in lexical (sorted) filename order
("concatenated in lexical filename order (deterministic tie-break)"). -/
def lexicalConcat (entries : List (String × List TrainingExampleR)) :
    List TrainingExampleR :=
  ((globJsonl entries).insertionSort
      (fun a b => lexLe a.1.data b.1.data)).flatMap (fun f => f.2)

/-! Concrete fixtures used by witnesses and counterexamples. -/

/-- A sample training record. -/
def recA : TrainingExampleR := ⟨"a".toList, [], "oa".toList⟩

/-- Another sample training record, distinct from `recA`. -/
def recB : TrainingExampleR := ⟨"b".toList, [], "ob".toList⟩

/-- A sample clock reading. -/
def tSecA : DateTime := ⟨2025, 6, 1, 12, 0, 0, 0⟩

/-- A clock reading half a second after `tSecA`: a distinct instant inside
the same clock second. -/
def tSecB : DateTime := ⟨2025, 6, 1, 12, 0, 0, 500000⟩

/-- A sample tokenizer without a pad token. -/
def tkStd : Tokenizer :=
  ⟨fun t => List.replicate t.length 7, none, 5⟩

/-- A benign sample environment: valid invocation, CUDA present, version
directory with two corpus files enumerated in reverse lexical order, no
license at the source model, no injected failures. -/
def envStd : Env :=
  { argv := ["finetune_model.py", "Models/m1"]
    modelPathExists := true
    cudaAvailable := true
    userResponse := "y"
    versionDirExists := true
    dirEntries := [("b.jsonl", [recB]), ("a.jsonl", [recA])]
    sourceHasLicense := false
    sourceLicenseText := []
    tokenizer := tkStd
    injectFailure := none
    now := tSecA
    frames := "  File f, line 1\n" }

/-- The benign environment with no accelerator and a declining operator. -/
def envDecline : Env :=
  { envStd with cudaAvailable := false, userResponse := "n" }

/-! Helper lemmas: how substring-occurrence counts distribute over the
append structure of the prompt template. -/

theorem prefix_append_split {α : Type} {pat a b : List α}
    (h : pat <+: a ++ b) :
    pat <+: a ∨ ∃ d, pat = a ++ d ∧ d ≠ [] ∧ d <+: b := by
  induction a generalizing pat with
  | nil =>
    cases pat with
    | nil => exact Or.inl (List.nil_prefix)
    | cons p ps => exact Or.inr ⟨p :: ps, rfl, by simp, h⟩
  | cons c a ih =>
    cases pat with
    | nil => exact Or.inl (List.nil_prefix)
    | cons p ps =>
      obtain ⟨t, ht⟩ := h
      rw [List.cons_append, List.cons_append] at ht
      injection ht with h1 h2
      rcases ih ⟨t, h2⟩ with h3 | ⟨d, hd1, hd2, hd3⟩
      · subst h1
        obtain ⟨u, hu⟩ := h3
        exact Or.inl ⟨u, by rw [List.cons_append, hu]⟩
      · subst h1
        exact Or.inr ⟨d, by rw [List.cons_append, hd1], hd2, hd3⟩

theorem countOccs_append_cons (pat a : List Char) (ch : Char)
    (b : List Char) (hn : ch ∉ pat) :
    countOccs pat (a ++ ch :: b) =
      countOccs pat a + countOccs pat (ch :: b) := by
  induction a with
  | nil => simp [countOccs]
  | cons c a ih =>
    have key : (pat <+: c :: (a ++ ch :: b)) ↔ (pat <+: c :: a) := by
      constructor
      · intro h
        rw [← List.cons_append] at h
        rcases prefix_append_split h with h1 | ⟨d, hd1, hd2, hd3⟩
        · exact h1
        · exfalso
          cases d with
          | nil => exact hd2 rfl
          | cons x xs =>
            obtain ⟨t, htt⟩ := hd3
            rw [List.cons_append] at htt
            injection htt with hx _
            subst hx
            exact hn (hd1 ▸ List.mem_append_right _ (List.mem_cons_self _ _))
      · intro h
        rw [← List.cons_append]
        exact h.trans (List.prefix_append _ _)
    have unfold1 : ∀ (x : Char) (xs : List Char), countOccs pat (x :: xs) =
        (if pat <+: x :: xs then 1 else 0) + countOccs pat xs :=
      fun _ _ => rfl
    rw [List.cons_append, unfold1 c (a ++ ch :: b), ih, unfold1 c a]
    simp only [key]
    omega

theorem countOccs_append_snoc (pat a0 : List Char) (ch : Char)
    (b : List Char) (hp : pat ≠ []) (hn : ch ∉ pat) :
    countOccs pat ((a0 ++ [ch]) ++ b) =
      countOccs pat (a0 ++ [ch]) + countOccs pat b := by
  induction a0 with
  | nil =>
    have h1 : ¬ (pat <+: ch :: b) := by
      intro h
      cases pat with
      | nil => exact hp rfl
      | cons p ps =>
        obtain ⟨t, ht⟩ := h
        rw [List.cons_append] at ht
        injection ht with hx _
        exact hn (hx ▸ List.mem_cons_self _ _)
    have h2 : ¬ (pat <+: [ch]) := by
      intro h
      cases pat with
      | nil => exact hp rfl
      | cons p ps =>
        obtain ⟨t, ht⟩ := h
        rw [List.cons_append] at ht
        injection ht with hx _
        exact hn (hx ▸ List.mem_cons_self _ _)
    simp [countOccs, h1, h2]
  | cons c a0 ih =>
    have key : (pat <+: c :: ((a0 ++ [ch]) ++ b)) ↔
        (pat <+: c :: (a0 ++ [ch])) := by
      constructor
      · intro h
        rw [← List.cons_append] at h
        rcases prefix_append_split h with h1 | ⟨d, hd1, _, _⟩
        · exact h1
        · exfalso
          apply hn
          rw [hd1]
          exact List.mem_append_left _
            (List.mem_cons_of_mem _
              (List.mem_append_right _ (List.mem_singleton_self _)))
      · intro h
        rw [← List.cons_append]
        exact h.trans (List.prefix_append _ _)
    have unfold1 : ∀ (x : Char) (xs : List Char), countOccs pat (x :: xs) =
        (if pat <+: x :: xs then 1 else 0) + countOccs pat xs :=
      fun _ _ => rfl
    rw [List.cons_append, List.cons_append,
      unfold1 c ((a0 ++ [ch]) ++ b), ih, unfold1 c (a0 ++ [ch])]
    simp only [key]
    omega

theorem countOccs_glue3 (pat ins inp out A B C : List Char) (hp : pat ≠ [])
    (hn : Char.ofNat 10 ∉ pat)
    (hA : ∃ a0, A = a0 ++ [Char.ofNat 10])
    (hB1 : ∃ bt, B = Char.ofNat 10 :: bt)
    (hB2 : ∃ b0, B = b0 ++ [Char.ofNat 10])
    (hC1 : ∃ ct, C = Char.ofNat 10 :: ct)
    (hC2 : ∃ c0, C = c0 ++ [Char.ofNat 10]) :
    countOccs pat (A ++ (ins ++ (B ++ (inp ++ (C ++ out))))) =
      countOccs pat A + countOccs pat ins + countOccs pat B +
        countOccs pat inp + countOccs pat C + countOccs pat out := by
  obtain ⟨a0, rfl⟩ := hA
  obtain ⟨b0, hB0⟩ := hB2
  obtain ⟨bt, rfl⟩ := hB1
  obtain ⟨c0, hC0⟩ := hC2
  obtain ⟨ct, rfl⟩ := hC1
  rw [countOccs_append_snoc pat a0 _ _ hp hn]
  rw [show (Char.ofNat 10 :: bt) ++ (inp ++ ((Char.ofNat 10 :: ct) ++ out))
      = Char.ofNat 10 :: (bt ++ (inp ++ ((Char.ofNat 10 :: ct) ++ out)))
      from rfl]
  rw [countOccs_append_cons pat ins _ _ hn]
  rw [show Char.ofNat 10 :: (bt ++ (inp ++ ((Char.ofNat 10 :: ct) ++ out)))
      = (Char.ofNat 10 :: bt) ++ (inp ++ ((Char.ofNat 10 :: ct) ++ out))
      from rfl]
  rw [hB0, countOccs_append_snoc pat b0 _ _ hp hn]
  rw [show (Char.ofNat 10 :: ct) ++ out = Char.ofNat 10 :: (ct ++ out)
      from rfl]
  rw [countOccs_append_cons pat inp _ _ hn]
  rw [show Char.ofNat 10 :: (ct ++ out) = (Char.ofNat 10 :: ct) ++ out
      from rfl]
  rw [hC0, countOccs_append_snoc pat c0 _ _ hp hn]
  rw [← hB0, ← hC0]
  omega

theorem countOccs_glue2 (pat ins out A C : List Char) (hp : pat ≠ [])
    (hn : Char.ofNat 10 ∉ pat)
    (hA : ∃ a0, A = a0 ++ [Char.ofNat 10])
    (hC1 : ∃ ct, C = Char.ofNat 10 :: ct)
    (hC2 : ∃ c0, C = c0 ++ [Char.ofNat 10]) :
    countOccs pat (A ++ (ins ++ (C ++ out))) =
      countOccs pat A + countOccs pat ins + countOccs pat C +
        countOccs pat out := by
  obtain ⟨a0, rfl⟩ := hA
  obtain ⟨c0, hC0⟩ := hC2
  obtain ⟨ct, rfl⟩ := hC1
  rw [countOccs_append_snoc pat a0 _ _ hp hn]
  rw [show (Char.ofNat 10 :: ct) ++ out = Char.ofNat 10 :: (ct ++ out)
      from rfl]
  rw [countOccs_append_cons pat ins _ _ hn]
  rw [show Char.ofNat 10 :: (ct ++ out) = (Char.ofNat 10 :: ct) ++ out
      from rfl]
  rw [hC0, countOccs_append_snoc pat c0 _ _ hp hn]
  rw [← hC0]
  omega

theorem countOccs_format3 (pat : List Char) (e : TrainingExampleR)
    (hp : pat ≠ []) (hn : Char.ofNat 10 ∉ pat) (hin : e.input ≠ []) :
    countOccs pat (format_instruction e) =
      countOccs pat "### Instruction:\n".toList +
        countOccs pat e.instruction +
        countOccs pat "\n\n### Input:\n".toList +
        countOccs pat e.input +
        countOccs pat "\n\n### Response:\n".toList +
        countOccs pat e.output := by
  unfold format_instruction
  rw [if_pos hin]
  simp only [List.append_assoc]
  exact countOccs_glue3 pat e.instruction e.input e.output _ _ _ hp hn
    ⟨"### Instruction:".toList, by decide⟩
    ⟨"\n### Input:\n".toList, by decide⟩
    ⟨"\n\n### Input:".toList, by decide⟩
    ⟨"\n### Response:\n".toList, by decide⟩
    ⟨"\n\n### Response:".toList, by decide⟩

theorem countOccs_format2 (pat : List Char) (e : TrainingExampleR)
    (hp : pat ≠ []) (hn : Char.ofNat 10 ∉ pat) (hin : e.input = []) :
    countOccs pat (format_instruction e) =
      countOccs pat "### Instruction:\n".toList +
        countOccs pat e.instruction +
        countOccs pat "\n\n### Response:\n".toList +
        countOccs pat e.output := by
  unfold format_instruction
  rw [if_neg (by simpa using hin)]
  simp only [List.append_assoc]
  exact countOccs_glue2 pat e.instruction e.output _ _ hp hn
    ⟨"### Instruction:".toList, by decide⟩
    ⟨"\n### Response:\n".toList, by decide⟩
    ⟨"\n\n### Response:".toList, by decide⟩

/-- C2, amended: for every training record none of whose field values
itself contains one of the three header strings, the formatted text
contains each of `### Instruction:`, `### Input:`, `### Response:` exactly
once and in that fixed order when the input field is non-empty; and when
the input field is absent or empty it contains `### Instruction:` and
`### Response:` exactly once each, in the same relative order, and
`### Input:` not at all. -/
theorem format_instruction_headers (e : TrainingExampleR)
    (hfields : ∀ h ∈ [hdrInstruction, hdrInput, hdrResponse],
      ∀ f ∈ [e.instruction, e.input, e.output], countOccs h f = 0) :
    (e.input ≠ [] →
      countOccs hdrInstruction (format_instruction e) = 1 ∧
      countOccs hdrInput (format_instruction e) = 1 ∧
      countOccs hdrResponse (format_instruction e) = 1 ∧
      ∃ y z w, format_instruction e =
        hdrInstruction ++ y ++ hdrInput ++ z ++ hdrResponse ++ w) ∧
    (e.input = [] →
      countOccs hdrInstruction (format_instruction e) = 1 ∧
      countOccs hdrInput (format_instruction e) = 0 ∧
      countOccs hdrResponse (format_instruction e) = 1 ∧
      ∃ y w, format_instruction e =
        hdrInstruction ++ y ++ hdrResponse ++ w) := by
  have zII : countOccs hdrInstruction e.instruction = 0 :=
    hfields _ (by simp) _ (by simp)
  have zIN : countOccs hdrInstruction e.input = 0 :=
    hfields _ (by simp) _ (by simp)
  have zIO : countOccs hdrInstruction e.output = 0 :=
    hfields _ (by simp) _ (by simp)
  have zPI : countOccs hdrInput e.instruction = 0 :=
    hfields _ (by simp) _ (by simp)
  have zPN : countOccs hdrInput e.input = 0 :=
    hfields _ (by simp) _ (by simp)
  have zPO : countOccs hdrInput e.output = 0 :=
    hfields _ (by simp) _ (by simp)
  have zRI : countOccs hdrResponse e.instruction = 0 :=
    hfields _ (by simp) _ (by simp)
  have zRN : countOccs hdrResponse e.input = 0 :=
    hfields _ (by simp) _ (by simp)
  have zRO : countOccs hdrResponse e.output = 0 :=
    hfields _ (by simp) _ (by simp)
  constructor
  · intro hin
    refine ⟨?_, ?_, ?_, ?_⟩
    · rw [countOccs_format3 _ _ (by decide) (by decide) hin, zII, zIN, zIO]
      decide
    · rw [countOccs_format3 _ _ (by decide) (by decide) hin, zPI, zPN, zPO]
      decide
    · rw [countOccs_format3 _ _ (by decide) (by decide) hin, zRI, zRN, zRO]
      decide
    · refine ⟨Char.ofNat 10 :: e.instruction ++
          [Char.ofNat 10, Char.ofNat 10],
        Char.ofNat 10 :: e.input ++ [Char.ofNat 10, Char.ofNat 10],
        Char.ofNat 10 :: e.output, ?_⟩
      unfold format_instruction
      rw [if_pos hin]
      rw [show "### Instruction:\n".toList =
            hdrInstruction ++ [Char.ofNat 10] by decide,
        show "\n\n### Input:\n".toList =
            Char.ofNat 10 :: Char.ofNat 10 :: (hdrInput ++ [Char.ofNat 10])
          by decide,
        show "\n\n### Response:\n".toList =
            Char.ofNat 10 :: Char.ofNat 10 ::
              (hdrResponse ++ [Char.ofNat 10]) by decide]
      simp [List.append_assoc]
  · intro hin
    refine ⟨?_, ?_, ?_, ?_⟩
    · rw [countOccs_format2 _ _ (by decide) (by decide) hin, zII, zIO]
      decide
    · rw [countOccs_format2 _ _ (by decide) (by decide) hin, zPI, zPO]
      decide
    · rw [countOccs_format2 _ _ (by decide) (by decide) hin, zRI, zRO]
      decide
    · refine ⟨Char.ofNat 10 :: e.instruction ++
          [Char.ofNat 10, Char.ofNat 10],
        Char.ofNat 10 :: e.output, ?_⟩
      unfold format_instruction
      rw [if_neg (by simpa using hin)]
      rw [show "### Instruction:\n".toList =
            hdrInstruction ++ [Char.ofNat 10] by decide,
        show "\n\n### Response:\n".toList =
            Char.ofNat 10 :: Char.ofNat 10 ::
              (hdrResponse ++ [Char.ofNat 10]) by decide]
      simp [List.append_assoc]

/-- C2, counterexample to the claim as stated: a record whose instruction
field is itself the string `### Input:` has non-empty input, yet its
formatted text contains the `### Input:` header twice — not "exactly" the
three headers once each. -/
theorem format_instruction_header_injection :
    (⟨hdrInput, [Char.ofNat 120], [Char.ofNat 121]⟩ :
        TrainingExampleR).input ≠ [] ∧
      countOccs hdrInput
        (format_instruction
          ⟨hdrInput, [Char.ofNat 120], [Char.ofNat 121]⟩) = 2 := by
  decide

/-- Witness: the amended C2 theorem applied at a concrete record with
non-empty input field. -/
theorem format_instruction_headers_witness :
    countOccs hdrInstruction
        (format_instruction ⟨"ask".toList, "ctx".toList, "ans".toList⟩)
        = 1 ∧
      countOccs hdrInput
        (format_instruction ⟨"ask".toList, "ctx".toList, "ans".toList⟩)
        = 1 ∧
      countOccs hdrResponse
        (format_instruction ⟨"ask".toList, "ctx".toList, "ans".toList⟩)
        = 1 := by
  have h := (format_instruction_headers
      ⟨"ask".toList, "ctx".toList, "ans".toList⟩ (by decide)).1 (by decide)
  exact ⟨h.1, h.2.1, h.2.2.1⟩

/-- C1: for every invocation with one argument whose base-model path
exists, `check_system` raises `KeyError` on the undefined
`OUTPUT_CONFIG` key `documentation_dir`, the top-level handler writes a
crash report, and the process exits with status 1 before the
no-accelerator prompt, dataset loading or any later stage; the Complete
state is unreachable, and `generate_documentation` reads the same missing
key. -/
theorem check_system_keyerror_aborts_run (env : Env)
    (hargs : env.argv.length = 2) (hpath : env.modelPathExists = true) :
    (runMain env).exitCode = 1 ∧
    (runMain env).reports.length = 1 ∧
    (runMain env).trace.promptShown = false ∧
    (runMain env).trace.datasetLoaded = false ∧
    (runMain env).trace.reachedComplete = false ∧
    check_system = Flow.exc (PyExc.keyError "documentation_dir") ∧
    ∀ mn v, generate_documentation mn v =
      Flow.exc (PyExc.keyError "documentation_dir") := by
  have hbody : runBody env =
      (Flow.exc (PyExc.keyError "documentation_dir"),
        { Trace.init with modelsDirCreated := true }) := by
    simp only [runBody, hargs, hpath]
    rfl
  refine ⟨?_, ?_, ?_, ?_, ?_, rfl, fun mn v => rfl⟩ <;>
    simp [runMain, hbody, finishRun, Trace.init]

/-- Witness: the C1 theorem applied to the benign sample environment. -/
theorem check_system_keyerror_aborts_run_witness :
    (runMain envStd).exitCode = 1 ∧
    (runMain envStd).reports.length = 1 ∧
    (runMain envStd).trace.promptShown = false ∧
    (runMain envStd).trace.datasetLoaded = false ∧
    (runMain envStd).trace.reachedComplete = false ∧
    check_system = Flow.exc (PyExc.keyError "documentation_dir") ∧
    ∀ mn v, generate_documentation mn v =
      Flow.exc (PyExc.keyError "documentation_dir") :=
  check_system_keyerror_aborts_run envStd rfl rfl

/-- C3: for every tokenizer and every formatted text, the encoding step
(after the pad-token fallback of `setup_model_and_tokenizer`) succeeds and
produces token ids of length exactly `max_seq_length` = 2048, truncating
longer encodings and padding shorter ones with the pad token; when the
tokenizer defines no pad token the end-of-sequence token becomes the pad
token; and re-encoding identical text yields an identical result. -/
theorem tokenize_fixed_length (tk : Tokenizer) (text : List Char) :
    TRAINING_CONFIG.max_seq_length = 2048 ∧
    ∃ ids, tokenize_function (fixPadToken tk) text = some ids ∧
      ids.length = TRAINING_CONFIG.max_seq_length ∧
      (TRAINING_CONFIG.max_seq_length ≤
          ((fixPadToken tk).encode text).length →
        ids = ((fixPadToken tk).encode text).take
          TRAINING_CONFIG.max_seq_length) ∧
      (((fixPadToken tk).encode text).length ≤
          TRAINING_CONFIG.max_seq_length →
        ∃ p, (fixPadToken tk).padToken = some p ∧
          ids = (fixPadToken tk).encode text ++
            List.replicate (TRAINING_CONFIG.max_seq_length -
              ((fixPadToken tk).encode text).length) p) ∧
      (tk.padToken = none →
        (fixPadToken tk).padToken = some tk.eosToken) ∧
      ∀ t2, t2 = text →
        tokenize_function (fixPadToken tk) t2 =
          tokenize_function (fixPadToken tk) text := by
  have hpad : ∃ p, (fixPadToken tk).padToken = some p := by
    unfold fixPadToken
    cases h : tk.padToken with
    | none => simp [h]
    | some p => simp [h]
  obtain ⟨p, hp⟩ := hpad
  refine ⟨rfl, truncatePad p ((fixPadToken tk).encode text),
    ?_, ?_, ?_, ?_, ?_, ?_⟩
  · simp [tokenize_function, hp]
  · simp only [truncatePad, List.length_append, List.length_take,
      List.length_replicate]
    omega
  · intro h
    simp [truncatePad, Nat.sub_eq_zero_of_le h]
  · intro h
    refine ⟨p, hp, ?_⟩
    simp [truncatePad, List.take_of_length_le h]
  · intro h
    simp [fixPadToken, h]
  · intro t2 ht2
    rw [ht2]

/-- Witness: the C3 theorem applied to the sample tokenizer (which has no
pad token) and a concrete text. -/
theorem tokenize_fixed_length_witness :
    ∃ ids, tokenize_function (fixPadToken tkStd) "ab".toList = some ids ∧
      ids.length = TRAINING_CONFIG.max_seq_length := by
  obtain ⟨-, ids, h1, h2, -⟩ := tokenize_fixed_length tkStd "ab".toList
  exact ⟨ids, h1, h2⟩

/-- C4, amended: an absent base-model path exits with status 1, no crash
report and no created directory; the dataset pre-flight checks behave that
way only in the pipeline fragment after the system check (which the
`KeyError` of C1 currently aborts first): there, an absent version
directory, or a version directory with zero matching `.jsonl` files, exits
with status 1 before training, with no crash report and no artifact
directory. -/
theorem preflight_exits_quietly (env : Env) :
    (env.argv.length = 2 → env.modelPathExists = false →
      (runMain env).exitCode = 1 ∧ (runMain env).reports = [] ∧
      (runMain env).trace.artifactDirCreated = false ∧
      (runMain env).trace.modelsDirCreated = false) ∧
    (env.cudaAvailable = true → env.versionDirExists = false →
      (runFromCheck env).exitCode = 1 ∧ (runFromCheck env).reports = [] ∧
      (runFromCheck env).trace.artifactDirCreated = false ∧
      (runFromCheck env).trace.datasetLoaded = false) ∧
    (env.cudaAvailable = true → globJsonl env.dirEntries = [] →
      (runFromCheck env).exitCode = 1 ∧ (runFromCheck env).reports = [] ∧
      (runFromCheck env).trace.artifactDirCreated = false ∧
      (runFromCheck env).trace.datasetLoaded = false) := by
  refine ⟨?_, ?_, ?_⟩
  · intro h1 h2
    have hbody : runBody env = (.exitWith 1, Trace.init) := by
      simp [runBody, h1, h2]
    simp [runMain, hbody, finishRun, Trace.init]
  · intro hc hv
    have hload : load_training_data env.versionDirExists env.dirEntries =
        .exitWith 1 := by
      simp [load_training_data, hv]
    have hbody : afterCheck env traceAfterCheckInit =
        (.exitWith 1, traceAfterCheckInit) := by
      simp [afterCheck, hc, hload]
    simp only [runFromCheck, hbody, finishRun]
    simp [traceAfterCheckInit, Trace.init]
  · intro hc hg
    have hload : load_training_data env.versionDirExists env.dirEntries =
        .exitWith 1 := by
      cases hv : env.versionDirExists with
      | false => simp [load_training_data, hv]
      | true => simp [load_training_data, hv, hg]
    have hbody : afterCheck env traceAfterCheckInit =
        (.exitWith 1, traceAfterCheckInit) := by
      simp [afterCheck, hc, hload]
    simp only [runFromCheck, hbody, finishRun]
    simp [traceAfterCheckInit, Trace.init]

/-- C4, counterexample to the claim as stated: with the base-model path
present and the version directory absent, the process does exit with
status 1 — but only because `check_system` raised `KeyError` first, and a
crash report *is* written, contradicting "writes no crash report". -/
theorem preflight_counterexample :
    ({ envStd with versionDirExists := false } : Env).versionDirExists
        = false ∧
      (runMain { envStd with versionDirExists := false }).exitCode = 1 ∧
      (runMain { envStd with versionDirExists := false }).reports.length
        = 1 :=
  ⟨rfl, rfl, rfl⟩

/-- Witness: the amended C4 theorem applied to three concrete
environments, one per pre-flight failure kind. -/
theorem preflight_exits_quietly_witness :
    ((runMain { envStd with modelPathExists := false }).exitCode = 1 ∧
      (runMain { envStd with modelPathExists := false }).reports = [] ∧
      (runMain { envStd with modelPathExists := false
        }).trace.artifactDirCreated = false ∧
      (runMain { envStd with modelPathExists := false
        }).trace.modelsDirCreated = false) ∧
    ((runFromCheck { envStd with versionDirExists := false }).exitCode = 1 ∧
      (runFromCheck { envStd with versionDirExists := false }).reports
        = [] ∧
      (runFromCheck { envStd with versionDirExists := false
        }).trace.artifactDirCreated = false ∧
      (runFromCheck { envStd with versionDirExists := false
        }).trace.datasetLoaded = false) ∧
    ((runFromCheck { envStd with dirEntries := [] }).exitCode = 1 ∧
      (runFromCheck { envStd with dirEntries := [] }).reports = [] ∧
      (runFromCheck { envStd with dirEntries := []
        }).trace.artifactDirCreated = false ∧
      (runFromCheck { envStd with dirEntries := []
        }).trace.datasetLoaded = false) :=
  ⟨(preflight_exits_quietly { envStd with modelPathExists := false }).1
      rfl rfl,
    (preflight_exits_quietly { envStd with versionDirExists := false }).2.1
      rfl rfl,
    (preflight_exits_quietly { envStd with dirEntries := [] }).2.2
      rfl rfl⟩

/-! Helper lemmas about the pipeline fragment after the system check. -/

theorem fixPadToken_hasPad (tk : Tokenizer) :
    ∃ p, (fixPadToken tk).padToken = some p := by
  unfold fixPadToken
  cases h : tk.padToken with
  | none => simp [h]
  | some p => simp [h]

theorem tokenizeAll_total (tk : Tokenizer) (hp : ∃ p, tk.padToken = some p)
    (ds : List TrainingExampleR) : ∃ out, tokenizeAll tk ds = some out := by
  obtain ⟨p, hp⟩ := hp
  induction ds with
  | nil => exact ⟨[], rfl⟩
  | cons e rest ih =>
    obtain ⟨out, hout⟩ := ih
    exact ⟨truncatePad p (tk.encode (format_instruction e)) :: out,
      by simp [tokenizeAll, tokenize_function, hp, hout]⟩

theorem load_training_data_ok (ve : Bool)
    (entries : List (String × List TrainingExampleR)) (hv : ve = true)
    (hg : globJsonl entries ≠ []) :
    load_training_data ve entries =
      Flow.ok ((globJsonl entries).flatMap (fun f => f.2)) := by
  have hne : (globJsonl entries).isEmpty = false := by
    cases h : globJsonl entries with
    | nil => exact absurd h hg
    | cons a l => rfl
  simp [load_training_data, hv, hne]

theorem afterLoad_doc_crash (env : Env) (ds : List TrainingExampleR)
    (t : Trace) (hinj : env.injectFailure = none)
    (hdw : t.docWritten = false) (hrc : t.reachedComplete = false) :
    ∃ t2, afterLoad env ds t =
        (Flow.exc (PyExc.keyError "documentation_dir"), t2) ∧
      t2.datasetLoaded = true ∧ t2.loadedRecords = ds ∧
      t2.artifactDirCreated = true ∧
      t2.licenseCopied = env.sourceHasLicense ∧
      t2.missingLicenseLogged = (!env.sourceHasLicense) ∧
      t2.docWritten = false ∧ t2.reachedComplete = false ∧
      t2.fileWrites = t.fileWrites ++
        copy_license_or_log env.sourceHasLicense (env.argv.getD 1 "")
          (outputDirFor (pathName (env.argv.getD 1 ""))
            FINETUNING_CONFIG.version) env.now env.sourceLicenseText := by
  obtain ⟨out, hout⟩ :=
    tokenizeAll_total (fixPadToken env.tokenizer)
      (fixPadToken_hasPad env.tokenizer) ds
  have hdoc : ∀ mn v, generate_documentation mn v =
      Flow.exc (PyExc.keyError "documentation_dir") := fun _ _ => rfl
  have h : afterLoad env ds t =
      (Flow.exc (PyExc.keyError "documentation_dir"),
        { t with
          datasetLoaded := true
          loadedRecords := ds
          artifactDirCreated := true
          licenseCopied := env.sourceHasLicense
          missingLicenseLogged := !env.sourceHasLicense
          fileWrites := t.fileWrites ++
            copy_license_or_log env.sourceHasLicense (env.argv.getD 1 "")
              (outputDirFor (pathName (env.argv.getD 1 ""))
                FINETUNING_CONFIG.version) env.now
              env.sourceLicenseText }) := by
    simp [afterLoad, hinj, prepare_dataset, hout, hdoc]
  exact ⟨_, h, by simp, by simp, by simp, by simp, by simp,
    by simp [hdw], by simp [hrc], by simp⟩

theorem afterCheck_reaches_load (env : Env) (t : Trace)
    (hc : env.cudaAvailable = true) (hv : env.versionDirExists = true)
    (hg : globJsonl env.dirEntries ≠ []) :
    afterCheck env t =
      afterLoad env ((globJsonl env.dirEntries).flatMap (fun f => f.2)) t := by
  simp [afterCheck, hc,
    load_training_data_ok env.versionDirExists env.dirEntries hv hg]

/-- C8, amended: the confirmation-prompt code sits after `check_system`,
which currently never completes (C1), so the prompt is reached only in the
post-check pipeline fragment; there, when no accelerator is detected the
prompt is shown, and a declining answer exits with status 0 before any
dataset loading and without a crash report. -/
theorem decline_prompt_exits_zero (env : Env)
    (hc : env.cudaAvailable = false)
    (hd : declinesPrompt env.userResponse = true) :
    (runFromCheck env).exitCode = 0 ∧
    (runFromCheck env).trace.promptShown = true ∧
    (runFromCheck env).trace.datasetLoaded = false ∧
    (runFromCheck env).reports = [] := by
  simp [runFromCheck, finishRun, afterCheck, hc, hd, traceAfterCheckInit,
    Trace.init]

/-- C8, counterexample to the claim as stated: with the base-model path
present and no accelerator available, the operator declines, yet the
prompt is never shown — `check_system` raises `KeyError` first — and the
process exits with status 1 and a crash report instead of status 0. -/
theorem decline_prompt_counterexample :
    envDecline.cudaAvailable = false ∧
      declinesPrompt envDecline.userResponse = true ∧
      (runMain envDecline).trace.promptShown = false ∧
      (runMain envDecline).exitCode = 1 ∧
      (runMain envDecline).reports.length = 1 :=
  ⟨rfl, by decide, rfl, rfl, rfl⟩

/-- Witness: the amended C8 theorem applied to a concrete declining
environment. -/
theorem decline_prompt_exits_zero_witness :
    (runFromCheck envDecline).exitCode = 0 ∧
      (runFromCheck envDecline).trace.promptShown = true ∧
      (runFromCheck envDecline).trace.datasetLoaded = false ∧
      (runFromCheck envDecline).reports = [] :=
  decline_prompt_exits_zero envDecline rfl (by decide)

/-- C7, amended: there is no warning-only path for documentation failures:
in the pipeline fragment that reaches the documentation stage, the stage's
failure (it always raises `KeyError` on the missing `documentation_dir`
key, before any file write) aborts the run through the top-level handler
with a crash report and exit status 1, and the run does not complete. -/
theorem doc_failure_aborts (env : Env) (hc : env.cudaAvailable = true)
    (hv : env.versionDirExists = true)
    (hg : globJsonl env.dirEntries ≠ [])
    (hinj : env.injectFailure = none) :
    (runFromCheck env).exitCode = 1 ∧
    (runFromCheck env).reports.length = 1 ∧
    (runFromCheck env).trace.docWritten = false ∧
    (runFromCheck env).trace.reachedComplete = false := by
  obtain ⟨t2, hAL, _, _, _, _, _, hdoc, hcomp, _⟩ :=
    afterLoad_doc_crash env ((globJsonl env.dirEntries).flatMap
      (fun f => f.2)) traceAfterCheckInit hinj rfl rfl
  have hbody : afterCheck env traceAfterCheckInit =
      (Flow.exc (PyExc.keyError "documentation_dir"), t2) := by
    rw [afterCheck_reaches_load env traceAfterCheckInit hc hv hg, hAL]
  simp [runFromCheck, hbody, finishRun, hdoc, hcomp]

/-- C7, counterexample to the claim as stated: in a benign environment the
documentation stage fails (missing `documentation_dir` key) and the run is
aborted with a crash report and exit status 1 — it is not degraded to a
logged warning and the run does not complete. -/
theorem doc_failure_counterexample :
    (runFromCheck envStd).exitCode = 1 ∧
    (runFromCheck envStd).reports.length = 1 ∧
    (runFromCheck envStd).trace.docWritten = false ∧
    (runFromCheck envStd).trace.reachedComplete = false :=
  ⟨rfl, rfl, rfl, rfl⟩

/-- Witness: the amended C7 theorem applied to a concrete environment
(with a license present, to differ from the counterexample run). -/
theorem doc_failure_aborts_witness :
    (runFromCheck { envStd with sourceHasLicense := true }).exitCode = 1 ∧
    (runFromCheck { envStd with sourceHasLicense := true
      }).reports.length = 1 ∧
    (runFromCheck { envStd with sourceHasLicense := true
      }).trace.docWritten = false ∧
    (runFromCheck { envStd with sourceHasLicense := true
      }).trace.reachedComplete = false :=
  doc_failure_aborts { envStd with sourceHasLicense := true }
    rfl rfl (by decide) rfl

/-- C5: the packaging step performs exactly one licensing action — it
copies the LICENSE into the artifact directory when the source base-model
directory contains one, and otherwise writes exactly one
`missing_license_<timestamp>.log` under `logs/` — never both, never
neither; and in every pipeline-fragment run that reaches the packaging
step, the license-copied and missing-license-logged outcomes are mutually
exclusive and exhaustive. -/
theorem license_copied_xor_logged (hasLicense : Bool) (src outDir : String)
    (now : DateTime) (lic : List Char) :
    (copy_license_or_log hasLicense src outDir now lic).length = 1 ∧
    (hasLicense = true →
      copy_license_or_log hasLicense src outDir now lic =
        [(outDir ++ "/LICENSE", lic)]) ∧
    (hasLicense = false →
      copy_license_or_log hasLicense src outDir now lic =
        [(missingLicensePath now, missing_license_content src outDir)]) ∧
    ∀ env : Env, env.cudaAvailable = true → env.versionDirExists = true →
      globJsonl env.dirEntries ≠ [] → env.injectFailure = none →
        (runFromCheck env).trace.licenseCopied = env.sourceHasLicense ∧
        (runFromCheck env).trace.missingLicenseLogged =
          (!env.sourceHasLicense) ∧
        (runFromCheck env).trace.licenseCopied ≠
          (runFromCheck env).trace.missingLicenseLogged := by
  refine ⟨?_, ?_, ?_, ?_⟩
  · cases hasLicense <;> simp [copy_license_or_log]
  · intro h
    simp [copy_license_or_log, h]
  · intro h
    simp [copy_license_or_log, h]
  · intro env hc hv hg hinj
    obtain ⟨t2, hAL, _, _, _, hlic, hmis, _, _, _⟩ :=
      afterLoad_doc_crash env ((globJsonl env.dirEntries).flatMap
        (fun f => f.2)) traceAfterCheckInit hinj rfl rfl
    have hbody : afterCheck env traceAfterCheckInit =
        (Flow.exc (PyExc.keyError "documentation_dir"), t2) := by
      rw [afterCheck_reaches_load env traceAfterCheckInit hc hv hg, hAL]
    have htr : (runFromCheck env).trace = t2 := by
      simp [runFromCheck, hbody, finishRun]
    rw [htr, hlic, hmis]
    refine ⟨rfl, rfl, ?_⟩
    cases env.sourceHasLicense <;> simp

/-- Witness: the C5 theorem applied with and without a source license, and
to a concrete fragment run. -/
theorem license_copied_xor_logged_witness :
    copy_license_or_log true "s" "d" tSecA [] = [("d" ++ "/LICENSE", [])] ∧
    copy_license_or_log false "s" "d" tSecA [] =
      [(missingLicensePath tSecA, missing_license_content "s" "d")] ∧
    (runFromCheck envStd).trace.licenseCopied ≠
      (runFromCheck envStd).trace.missingLicenseLogged :=
  ⟨(license_copied_xor_logged true "s" "d" tSecA []).2.1 rfl,
    (license_copied_xor_logged false "s" "d" tSecA []).2.2.1 rfl,
    ((license_copied_xor_logged true "s" "d" tSecA []).2.2.2 envStd
      rfl rfl (by decide) rfl).2.2⟩

/-- C6, amended: every uncaught failure produces exactly one crash report;
its body embeds the caller-supplied context string (for the pipeline, the
model path) and a stack trace that is non-empty by construction; report
file names are determined by the formatted timestamp, so failures whose
timestamps differ at second granularity get distinct files — but the name
carries nothing finer than seconds, so same-second failures share one
name (see the counterexample). -/
theorem crash_report_shape :
    (∀ t cud ctx e frames, ctx ≠ "" →
      ("Context: " ++ ctx).toList <:+:
        crash_report_content t cud ctx e frames) ∧
    (∀ t cud ctx e frames,
      "Traceback (most recent call last):\n".toList <:+:
        crash_report_content t cud ctx e frames) ∧
    (∀ frames, (format_exc frames).toList ≠ []) ∧
    (∀ t1 t2, strftimeTS t1 ≠ strftimeTS t2 →
      report_name t1 ≠ report_name t2) ∧
    (∀ env e t, (finishRun env (Flow.exc e, t)).reports.length = 1) ∧
    (∀ env, (runMain env).reports.length ≤ 1) ∧
    (∀ env, (runFromCheck env).reports.length ≤ 1) := by
  refine ⟨?_, ?_, ?_, ?_, ?_, ?_, ?_⟩
  · intro t cud ctx e frames hctx
    refine ⟨crHeader t cud,
      "\n\n".toList ++ (crErrorBlock e ++ ("Traceback:\n".toList ++
        ((format_exc frames).toList ++ crFooter))), ?_⟩
    simp [crash_report_content, crContextBlock, hctx, String.toList,
      String.data_append, List.append_assoc]
  · intro t cud ctx e frames
    refine ⟨crHeader t cud ++ crContextBlock ctx ++ crErrorBlock e ++
        "Traceback:\n".toList, frames.toList ++ crFooter, ?_⟩
    simp [crash_report_content, format_exc, String.toList,
      String.data_append, List.append_assoc]
  · intro frames
    simp [format_exc, String.toList, String.data_append]
  · intro t1 t2 hne heq
    apply hne
    have hdata := congrArg String.data heq
    simp only [report_name, String.data_append, List.append_assoc] at hdata
    have h2 := List.append_cancel_left hdata
    have h3 := List.append_cancel_right h2
    ext1
    exact h3
  · intro env e t
    rfl
  · intro env
    rw [runMain]
    rcases runBody env with ⟨fl, t⟩
    cases fl <;> simp [finishRun]
  · intro env
    rw [runFromCheck]
    rcases h : afterCheck env traceAfterCheckInit with ⟨fl, t⟩
    cases fl <;> simp [finishRun]

set_option maxRecDepth 4096 in
/-- C6, counterexample to the claim as stated: two distinct failure
instants inside the same clock second map to the same report file name,
and the second `open(path, "w")` replaces the first report, which is
lost. -/
theorem crash_report_collision :
    tSecA ≠ tSecB ∧
    report_name tSecA = report_name tSecB ∧
    fsAfter
        [(reportPath tSecA,
            crash_report_content tSecA true "c" (.keyError "k") "f1"),
          (reportPath tSecB,
            crash_report_content tSecB true "c" (.keyError "k") "f2")]
        (reportPath tSecA) =
      some (crash_report_content tSecB true "c" (.keyError "k") "f2") ∧
    crash_report_content tSecA true "c" (.keyError "k") "f1" ≠
      crash_report_content tSecB true "c" (.keyError "k") "f2" := by
  refine ⟨by decide, rfl, rfl, by decide⟩

/-- Witness: the amended C6 theorem applied at concrete inputs: distinct
seconds give distinct report names, the context is embedded, and the
crashing benign run writes exactly one report. -/
theorem crash_report_shape_witness :
    report_name tSecA ≠ report_name ⟨2025, 6, 1, 12, 0, 1, 0⟩ ∧
    ("Context: " ++ "Model: m").toList <:+:
      crash_report_content tSecA true "Model: m" (.keyError "k") "fr" ∧
    (runMain envStd).reports.length ≤ 1 :=
  ⟨crash_report_shape.2.2.2.1 tSecA ⟨2025, 6, 1, 12, 0, 1, 0⟩ (by decide),
    crash_report_shape.1 tSecA true "Model: m" (.keyError "k") "fr"
      (by decide),
    crash_report_shape.2.2.2.2.2.1 envStd⟩

/-- C9, amended: the dataset loader concatenates the records of the
matching files in the order the filesystem enumerates them (`Path.glob`
applies no sorting); the result coincides with lexical filename order
exactly when the enumeration already is lexically sorted. -/
theorem load_enumeration_order
    (entries : List (String × List TrainingExampleR))
    (hsorted : List.Pairwise
      (fun a b => lexLe a.1.data b.1.data = true) entries)
    (hg : globJsonl entries ≠ []) :
    load_training_data true entries = Flow.ok (lexicalConcat entries) ∧
    load_training_data true entries =
      Flow.ok ((globJsonl entries).flatMap (fun f => f.2)) := by
  have hsf : List.Pairwise (fun a b => lexLe a.1.data b.1.data = true)
      (globJsonl entries) :=
    hsorted.filter _
  have hsort : (globJsonl entries).insertionSort
      (fun a b => lexLe a.1.data b.1.data) = globJsonl entries :=
    List.Sorted.insertionSort_eq hsf
  have hload := load_training_data_ok true entries rfl hg
  exact ⟨by rw [hload, lexicalConcat, hsort], hload⟩

/-- C9, counterexample to the claim as stated: a version directory whose
two matching files are enumerated in reverse lexical order is loaded in
that enumeration order, not in lexical order — the result depends on the
filesystem enumeration order. -/
theorem load_order_counterexample :
    load_training_data true [("b.jsonl", [recB]), ("a.jsonl", [recA])] =
      Flow.ok [recB, recA] ∧
    lexicalConcat [("b.jsonl", [recB]), ("a.jsonl", [recA])] =
      [recA, recB] ∧
    recA ≠ recB ∧
    ([recB, recA] : List TrainingExampleR) ≠ [recA, recB] := by
  refine ⟨rfl, by decide, by decide, by decide⟩

/-- Witness: the amended C9 theorem applied to a lexically-sorted
enumeration of two files. -/
theorem load_enumeration_order_witness :
    load_training_data true [("a.jsonl", [recA]), ("b.jsonl", [recB])] =
      Flow.ok (lexicalConcat [("a.jsonl", [recA]), ("b.jsonl", [recB])]) :=
  (load_enumeration_order [("a.jsonl", [recA]), ("b.jsonl", [recB])]
    (by decide) (by decide)).1

/-- C10, amended: the dataset loader terminates the run (exit status 1)
exactly when the version directory is absent or matches no `.jsonl` file;
when it returns, the result is the concatenation of the records of the
matching files, which is empty whenever the matching files together
contain zero records — there is no record-count check. -/
theorem load_success_conditions (ve : Bool)
    (entries : List (String × List TrainingExampleR)) :
    ((∃ ds, load_training_data ve entries = Flow.ok ds) ↔
      (ve = true ∧ globJsonl entries ≠ [])) ∧
    (∀ ds, load_training_data ve entries = Flow.ok ds →
      ds = (globJsonl entries).flatMap (fun f => f.2)) := by
  cases ve with
  | false =>
    constructor
    · simp [load_training_data]
    · intro ds h
      simp [load_training_data] at h
  | true =>
    cases h : globJsonl entries with
    | nil =>
      have hload : load_training_data true entries = Flow.exitWith 1 := by
        simp [load_training_data, h]
      constructor
      · simp [hload, h]
      · intro ds hds
        rw [hload] at hds
        exact absurd hds (by simp)
    | cons a l =>
      have hload := load_training_data_ok true entries rfl (by simp [h])
      constructor
      · simp [hload, h]
      · intro ds hds
        rw [hload] at hds
        injection hds with h2
        rw [← h]
        exact h2.symm

/-- C10, counterexample to the claim as stated: a version directory with
one matching file containing zero records is not treated as a fatal
pre-flight failure — the loader returns successfully with an empty
dataset. -/
theorem load_empty_counterexample :
    load_training_data true [("a.jsonl", ([] : List TrainingExampleR))] =
      Flow.ok [] ∧
    (∀ c, Flow.ok ([] : List TrainingExampleR) ≠ Flow.exitWith c) := by
  refine ⟨rfl, fun c => by simp⟩

/-- Witness: the amended C10 theorem applied to a concrete directory with
one matching, one-record file. -/
theorem load_success_conditions_witness :
    ∃ ds, load_training_data true [("a.jsonl", [recA])] = Flow.ok ds :=
  (load_success_conditions true [("a.jsonl", [recA])]).1.mpr
    ⟨rfl, by decide⟩

end Finetune
